import Mathlib

/-!
Verification of the notebook
`Section-08-Cost-Sensitive-Learning/08-01-Cost-when-training-ML-algorithm.ipynb`.

The notebook is a linear script: it enumerates sklearn classifiers that expose
`class_weight` (wrapping each instantiation in a bare `try/except`), loads a CSV
and samples 10000 rows, splits them with `train_test_split(test_size=0.3,
random_state=0)`, and runs two variants of a fit-and-score helper `run_Logit`
(one passing `class_weight` to the constructor, one passing `sample_weight` to
`fit`), printing train and test ROC-AUC.

The external library calls (`LogisticRegression.fit`, `predict_proba`) are
numerical routines of sklearn, not code of this repository; they are abstracted
as function parameters (`fit`, `predict_proba`) over opaque model and feature
types.  Everything the notebook itself does - configuration records, the weight
vector, the split arithmetic, the order of prints, the error suppression in the
enumeration loop - is embedded concretely below.
-/

/-- The `class_weight` argument of `LogisticRegression`: Python `None`, the
string `'balanced'`, or a dict from label value to penalty. -/
inductive ClassWeight where
  | none : ClassWeight
  | balanced : ClassWeight
  | dict (m : List (Int × Rat)) : ClassWeight
deriving DecidableEq

/-- The constructor arguments given to `LogisticRegression` in the notebook. -/
structure LogisticRegressionParams where
  penalty : String
  solver : String
  random_state : Nat
  max_iter : Nat
  n_jobs : Nat
  class_weight : ClassWeight
deriving DecidableEq

/-- The parameters of the `LogisticRegression` constructed inside the
`class_weight` variant of `run_Logit` (notebook cell 8). -/
def cell8_params (class_weight : ClassWeight) : LogisticRegressionParams :=
  { penalty := "l2"
    solver := "newton-cg"
    random_state := 0
    max_iter := 10
    n_jobs := 4
    class_weight := class_weight }

/-- The parameters of the `LogisticRegression` constructed inside the
`sample_weight` variant of `run_Logit` (notebook cell 14); `class_weight` is
omitted there, so it takes sklearn's default `None`. -/
def cell14_params : LogisticRegressionParams :=
  { penalty := "l2"
    solver := "newton-cg"
    random_state := 0
    max_iter := 10
    n_jobs := 4
    class_weight := ClassWeight.none }

/-- One line written to standard output: either literal text or a scalar
metric value interpolated into the `'Random Forests roc-auc: {}'` format. -/
inductive Printed where
  | text (s : String) : Printed
  | metric (r : Rat) : Printed
deriving DecidableEq

/-- `sklearn.metrics.roc_auc_score` on binary labels, with the larger label
`1` as the positive class: the fraction of (positive, negative) pairs ranked
correctly, ties counting one half.  Scores are the probabilities passed as
`pred[:, 1]`. -/
def roc_auc_score (y_true : List Int) (y_score : List Rat) : Rat :=
  let pairs := y_true.zip y_score
  let pos := (pairs.filter (fun p => p.1 == 1)).map Prod.snd
  let neg := (pairs.filter (fun p => !(p.1 == 1))).map Prod.snd
  let wins := (pos.map (fun sp =>
    ((neg.filter (fun sn => sn < sp)).length : Rat) +
    ((neg.filter (fun sn => sn == sp)).length : Rat) / 2)).sum
  wins / ((pos.length : Rat) * (neg.length : Rat))

/-- Cell 8 of the notebook: `run_Logit` taking a `class_weight`.  The sklearn
calls are abstracted: `fit` maps constructor parameters, training features,
training labels and the optional `sample_weight` given to `.fit` (here absent,
hence `Option.none`) to a fitted model; `predict_proba` maps a model and rows
to per-row class-probability pairs, of which the source keeps column 1
(`pred[:, 1]`).  The function prints four lines and returns nothing. -/
def run_Logit {M F : Type}
    (fit : LogisticRegressionParams → List F → List Int → Option (List Rat) → M)
    (predict_proba : M → List F → List (Rat × Rat))
    (X_train X_test : List F) (y_train y_test : List Int)
    (class_weight : ClassWeight) : List Printed :=
  let logit := fit (cell8_params class_weight) X_train y_train Option.none
  [Printed.text "Train set",
   Printed.metric (roc_auc_score y_train ((predict_proba logit X_train).map Prod.snd)),
   Printed.text "Test set",
   Printed.metric (roc_auc_score y_test ((predict_proba logit X_test).map Prod.snd))]

/-- Cell 14 of the notebook: the redefined `run_Logit` taking a
`sample_weight` that is forwarded to `logit.fit`. -/
def run_Logit_sample_weight {M F : Type}
    (fit : LogisticRegressionParams → List F → List Int → Option (List Rat) → M)
    (predict_proba : M → List F → List (Rat × Rat))
    (X_train X_test : List F) (y_train y_test : List Int)
    (sample_weight : Option (List Rat)) : List Printed :=
  let logit := fit cell14_params X_train y_train sample_weight
  [Printed.text "Train set",
   Printed.metric (roc_auc_score y_train ((predict_proba logit X_train).map Prod.snd)),
   Printed.text "Test set",
   Printed.metric (roc_auc_score y_test ((predict_proba logit X_test).map Prod.snd))]

/-- `numpy.where` on an elementwise boolean condition, broadcasting the two
scalar branches. -/
def np_where (cond : List Bool) (a b : Rat) : List Rat :=
  cond.map (fun c => if c then a else b)

/-- The elementwise comparison `y == v` of a pandas series with a scalar. -/
def series_eq (y : List Int) (v : Int) : List Bool :=
  y.map (fun x => x == v)

/-- The weight vector `np.where(y_train==1, 99, 1)` of notebook cell 16. -/
def sample_weight_99 (y_train : List Int) : List Rat :=
  np_where (series_eq y_train 1) 99 1

/-- Modelled from the spec: the CSV data file `../kdd2004.csv` is not part of
the repository, so the label column of the loaded 10000-row sample is modelled
after the spec's data model (binary labels in \x7b-1, +1\x7d, skewed about 99%
against 1%) and the recorded output of `data.target.value_counts() / len(data)`
in the notebook (`-1` ↦ 0.9896, `1` ↦ 0.0104). -/
def sampled_target : List Int :=
  List.replicate 9896 (-1) ++ List.replicate 104 1

/-- The class-weight dictionary `{-1:1, 1:10}` passed in notebook cell 11. -/
def class_weight_dict : List (Int × Rat) := [(-1, 1), (1, 10)]

/-- Ceiling number of test rows computed by sklearn for `test_size=0.3`:
`ceil(0.3 * n)`, written over naturals. -/
def n_test_of (n : Nat) : Nat := (3 * n + 9) / 10

/-- `train_test_split(..., test_size=0.3, random_state=0)` at row level: the
seeded shuffle of the rows is taken as input; sklearn assigns the first
`ceil(0.3*n)` shuffled rows to the test subset and the rest to the training
subset.  Returns `(train, test)`. -/
def train_test_split {α : Type} (shuffled : List α) : List α × List α :=
  (shuffled.drop (n_test_of shuffled.length), shuffled.take (n_test_of shuffled.length))

/-- C3: the `sample_weight` vector built by `np.where(y_train==1, 99, 1)` has
one entry per training row, positionally aligned with the labels (entry `i`
is 99 exactly when label `i` equals 1, else 1), and every entry is positive. -/
theorem sample_weight_vector_spec (y_train : List Int) :
    (sample_weight_99 y_train).length = y_train.length ∧
    (∀ i : Nat, (sample_weight_99 y_train).get? i =
      (y_train.get? i).map (fun v => if v == 1 then (99 : Rat) else 1)) ∧
    (∀ w ∈ sample_weight_99 y_train, 0 < w) := by
  refine ⟨by simp [sample_weight_99, np_where, series_eq], ?_, ?_⟩
  · intro i
    simp only [sample_weight_99, np_where, series_eq, List.map_map, List.get?_eq_getElem?,
      List.getElem?_map]
    cases y_train[i]? <;> simp
  · intro w hw
    simp only [sample_weight_99, np_where, series_eq, List.map_map, List.mem_map] at hw
    obtain ⟨v, -, rfl⟩ := hw
    by_cases h : v == 1 <;> norm_num [h]

/-- Closed instance of `sample_weight_vector_spec` at `y_train = [1, -1]`. -/
theorem sample_weight_vector_spec_witness :
    (sample_weight_99 [1, -1]).length = 2 ∧ (0 : Rat) < 99 :=
  ⟨(sample_weight_vector_spec [1, -1]).1,
   (sample_weight_vector_spec [1, -1]).2.2 99 (by decide)⟩

/-- C6: every label of the loaded sample is -1 or +1; of the 10000 rows, 9896
(98.96%, about 99%) are labelled -1 and 104 (1.04%, about 1%) are labelled +1;
and the one class-level weight dictionary used, `{-1:1, 1:10}`, has exactly the
keys -1 and 1, each mapped to a positive penalty. -/
theorem dataset_labels_and_class_weights :
    (∀ l ∈ sampled_target, l = -1 ∨ l = 1) ∧
    sampled_target.length = 10000 ∧
    sampled_target.count (-1) = 9896 ∧
    sampled_target.count 1 = 104 ∧
    class_weight_dict.map Prod.fst = [-1, 1] ∧
    (∀ p ∈ class_weight_dict, 0 < p.2) := by
  refine ⟨?_, ?_, ?_, ?_, by decide, by decide⟩
  · intro l hl
    rcases List.mem_append.1 hl with h | h
    · exact Or.inl (List.eq_of_mem_replicate h)
    · exact Or.inr (List.eq_of_mem_replicate h)
  · unfold sampled_target
    rw [List.length_append, List.length_replicate, List.length_replicate]
  · unfold sampled_target
    rw [List.count_append, List.count_replicate, List.count_replicate]
    norm_num
  · unfold sampled_target
    rw [List.count_append, List.count_replicate, List.count_replicate]
    norm_num

/-- Closed instance of `dataset_labels_and_class_weights`: the first label of
the sample is -1 or 1, and the dictionary keys are exactly [-1, 1]. -/
theorem dataset_labels_and_class_weights_witness :
    ((-1 : Int) = -1 ∨ (-1 : Int) = 1) ∧ class_weight_dict.map Prod.fst = [-1, 1] :=
  ⟨dataset_labels_and_class_weights.1 (-1)
      (List.mem_append.2 (Or.inl (List.mem_replicate.2 ⟨by decide, rfl⟩))),
   dataset_labels_and_class_weights.2.2.2.2.1⟩

/-- C2: given any seeded reshuffle of the sampled rows, `train_test_split`
with `test_size=0.3` assigns `ceil(0.3*n)` rows to the test subset and the
remaining rows to the training subset (for the notebook's 10000 sampled rows:
3000 and 7000); the two subsets together are a permutation of the whole
sampled dataset, and when the rows are pairwise distinct the two subsets are
disjoint. -/
theorem train_test_split_partition {α : Type} (rows shuffled : List α)
    (h : shuffled.Perm rows) :
    (train_test_split shuffled).2.length = n_test_of rows.length ∧
    (train_test_split shuffled).1.length = rows.length - n_test_of rows.length ∧
    ((train_test_split shuffled).1 ++ (train_test_split shuffled).2).Perm rows ∧
    (rows.Nodup → (train_test_split shuffled).1.Disjoint (train_test_split shuffled).2) := by
  have hlen : shuffled.length = rows.length := h.length_eq
  have hle : n_test_of rows.length ≤ rows.length := by
    unfold n_test_of; omega
  refine ⟨?_, ?_, ?_, ?_⟩
  · simp [train_test_split, hlen, Nat.min_eq_left hle]
  · simp [train_test_split, hlen]
  · have h1 : (shuffled.drop (n_test_of shuffled.length) ++
        shuffled.take (n_test_of shuffled.length)).Perm
        (shuffled.take (n_test_of shuffled.length) ++
          shuffled.drop (n_test_of shuffled.length)) := List.perm_append_comm
    rw [List.take_append_drop] at h1
    exact h1.trans h
  · intro hnd
    have hnd' : shuffled.Nodup := (h.nodup_iff).2 hnd
    exact List.disjoint_symm
      (List.disjoint_take_drop hnd' (Nat.le_refl (n_test_of shuffled.length)))

/-- Closed instance of `train_test_split_partition`: splitting the 10 pairwise
distinct rows `0..9` (identity shuffle) gives a 3-row test subset and a 7-row
training subset that are disjoint and together exhaust the rows. -/
theorem train_test_split_partition_witness :
    (train_test_split (List.range 10)).2.length = n_test_of 10 ∧
    (train_test_split (List.range 10)).1.length = 10 - n_test_of 10 ∧
    ((train_test_split (List.range 10)).1 ++
      (train_test_split (List.range 10)).2).Perm (List.range 10) ∧
    (List.range 10).Nodup := by
  have h := train_test_split_partition (List.range 10) (List.range 10) (List.Perm.refl _)
  have hnd : (List.range 10).Nodup := by decide
  exact ⟨by simpa using h.1, by simpa using h.2.1, h.2.2.1, hnd⟩

/-- C1: `run_Logit` fits the classifier only on the training subset (the
abstract `fit` receives `X_train` and `y_train` alone, and the train-set
header and metric are unchanged under any replacement of the test data), then
prints exactly four lines: the train-set header, the ROC-AUC of the predicted
probabilities on the training subset against `y_train`, the test-set header,
and the ROC-AUC on the test subset against `y_test`, train first and test
second. -/
theorem run_Logit_fit_and_score_trace {M F : Type}
    (fit : LogisticRegressionParams → List F → List Int → Option (List Rat) → M)
    (predict_proba : M → List F → List (Rat × Rat))
    (X_train X_test : List F) (y_train y_test : List Int)
    (class_weight : ClassWeight) :
    (run_Logit fit predict_proba X_train X_test y_train y_test class_weight =
      [Printed.text "Train set",
       Printed.metric (roc_auc_score y_train
         ((predict_proba (fit (cell8_params class_weight) X_train y_train Option.none)
            X_train).map Prod.snd)),
       Printed.text "Test set",
       Printed.metric (roc_auc_score y_test
         ((predict_proba (fit (cell8_params class_weight) X_train y_train Option.none)
            X_test).map Prod.snd))]) ∧
    (∀ (X_test' : List F) (y_test' : List Int),
      (run_Logit fit predict_proba X_train X_test y_train y_test class_weight).take 2 =
      (run_Logit fit predict_proba X_train X_test' y_train y_test' class_weight).take 2) :=
  ⟨rfl, fun _ _ => rfl⟩

/-- C9: with the unweighted configuration, the two `run_Logit` variants
coincide: cell 8's constructor parameters with `class_weight=None` equal
cell 14's (same penalty, solver, random_state, max_iter, n_jobs, and the
defaulted class_weight), and for every abstract classifier and every split the
two variants print identical train and test ROC-AUC lines. -/
theorem unweighted_variants_agree {M F : Type}
    (fit : LogisticRegressionParams → List F → List Int → Option (List Rat) → M)
    (predict_proba : M → List F → List (Rat × Rat))
    (X_train X_test : List F) (y_train y_test : List Int) :
    cell8_params ClassWeight.none = cell14_params ∧
    run_Logit fit predict_proba X_train X_test y_train y_test ClassWeight.none =
      run_Logit_sample_weight fit predict_proba X_train X_test y_train y_test
        Option.none :=
  ⟨rfl, rfl⟩

/-- Cell 1 of the notebook: each sklearn estimator is a name together with the
outcome of `hasattr(class_(), 'class_weight')`, where instantiating `class_()`
may raise (`Except.error`).  The loop prints the names whose instantiation
succeeds and exposes `class_weight`; the bare `try/except: pass` swallows every
instantiation failure.  Returns the list of printed names. -/
def all_estimators_loop : List (String × Except String Bool) → List String
  | [] => []
  | (name, r) :: rest =>
    match r with
    | Except.ok true => name :: all_estimators_loop rest
    | Except.ok false => all_estimators_loop rest
    | Except.error _ => all_estimators_loop rest

/-- The same enumeration loop with the `try/except` removed: the first
instantiation failure propagates to the caller. -/
def all_estimators_loop_no_catch : List (String × Except String Bool) → Except String (List String)
  | [] => Except.ok []
  | (name, r) :: rest =>
    match r with
    | Except.ok true => (all_estimators_loop_no_catch rest).map (fun l => name :: l)
    | Except.ok false => all_estimators_loop_no_catch rest
    | Except.error e => Except.error e

/-- An estimator record that survived instantiation and exposes
`class_weight`. -/
def instantiation_ok (r : Except String Bool) : Bool :=
  match r with
  | Except.ok true => true
  | _ => false

/-- A concrete enumeration input in which one estimator's no-argument
instantiation raises - the very situation the notebook's `try/except` exists
for, since several sklearn classifiers cannot be constructed without
arguments. -/
def failing_estimators : List (String × Except String Bool) :=
  [("LogisticRegression", Except.ok true),
   ("ClassifierChain", Except.error "__init__ raised TypeError"),
   ("SVC", Except.ok true)]

/-- The seed actually used by a library call: an explicit `random_state` if
one was passed, otherwise fresh ambient randomness. -/
def seed_or_ambient (random_state : Option Nat) (ambient : Nat) : Nat :=
  match random_state with
  | Option.some s => s
  | Option.none => ambient

/-- `pandas.DataFrame.sample(k)` without a `random_state`: draw `k` rows
according to a permutation generated from the given seed (here always the
ambient one, since the notebook passes no seed). -/
def pandas_sample {ρ : Type} (shuffle : Nat → Nat → List Nat) (seed : Nat)
    (rows : List ρ) (k : Nat) : List ρ :=
  ((shuffle seed rows.length).filterMap (fun i => rows.get? i)).take k

/-- Cells 6 and 9-16 of the notebook, after the dataset is in memory: shuffle
with the fixed seed `random_state=0`, split off 30% as the test subset,
project features and target, and run the five `run_Logit` invocations
(class_weight `None`, `'balanced'`, `{-1:1, 1:10}`, then sample_weight `None`
and `np.where(y_train==1, 99, 1)`), concatenating their printed lines.  The
`ambient` argument is the run's ambient randomness; every seeded call ignores
it. -/
def pipeline_after_load {M F : Type} (shuffle : Nat → Nat → List Nat)
    (fit : LogisticRegressionParams → List F → List Int → Option (List Rat) → M)
    (predict_proba : M → List F → List (Rat × Rat))
    (ambient : Nat) (table : List (F × Int)) : List Printed :=
  let perm := shuffle (seed_or_ambient (Option.some 0) ambient) table.length
  let split := train_test_split (perm.filterMap (fun i => table.get? i))
  let X_train := split.1.map Prod.fst
  let y_train := split.1.map Prod.snd
  let X_test := split.2.map Prod.fst
  let y_test := split.2.map Prod.snd
  run_Logit fit predict_proba X_train X_test y_train y_test ClassWeight.none ++
  run_Logit fit predict_proba X_train X_test y_train y_test ClassWeight.balanced ++
  run_Logit fit predict_proba X_train X_test y_train y_test
    (ClassWeight.dict class_weight_dict) ++
  run_Logit_sample_weight fit predict_proba X_train X_test y_train y_test
    Option.none ++
  run_Logit_sample_weight fit predict_proba X_train X_test y_train y_test
    (Option.some (sample_weight_99 y_train))

/-- The relative path passed to `pd.read_csv`. -/
def csv_path : String := "../kdd2004.csv"

/-- An observable side effect of the notebook on its environment. -/
inductive Effect where
  | read_file (path : String) : Effect
  | write_file (path : String) : Effect
  | print (line : Printed) : Effect
deriving DecidableEq

/-- Whether an effect reads a file. -/
def Effect.is_read : Effect → Bool
  | Effect.read_file _ => true
  | _ => false

/-- Whether an effect writes a file (or persists any state). -/
def Effect.is_write : Effect → Bool
  | Effect.write_file _ => true
  | _ => false

/-- The full effect trace of one top-to-bottom execution of the notebook:
the enumeration loop's prints, then the single CSV read, then the metric
prints of the five fit-and-score runs on the sampled table. -/
def notebook_effects {M F : Type} (shuffle : Nat → Nat → List Nat)
    (fit : LogisticRegressionParams → List F → List Int → Option (List Rat) → M)
    (predict_proba : M → List F → List (Rat × Rat))
    (estimators : List (String × Except String Bool))
    (csv_rows : List (F × Int)) (ambient : Nat) : List Effect :=
  (all_estimators_loop estimators).map (fun n => Effect.print (Printed.text n)) ++
  [Effect.read_file csv_path] ++
  (pipeline_after_load shuffle fit predict_proba ambient
    (pandas_sample shuffle (seed_or_ambient Option.none ambient) csv_rows 10000)).map
    Effect.print

/-- The notebook from the load statement onward, with the load outcome made
explicit: an exception in `pd.read_csv` propagates to the caller, since no
statement after cell 1 is wrapped in any `try/except`. -/
def notebook_run {M F : Type} (shuffle : Nat → Nat → List Nat)
    (fit : LogisticRegressionParams → List F → List Int → Option (List Rat) → M)
    (predict_proba : M → List F → List (Rat × Rat))
    (ambient : Nat) (loaded : Except String (List (F × Int))) :
    Except String (List Printed) :=
  match loaded with
  | Except.error e => Except.error e
  | Except.ok rows =>
      Except.ok (pipeline_after_load shuffle fit predict_proba ambient
        (pandas_sample shuffle (seed_or_ambient Option.none ambient) rows 10000))

/-- Trivial model type instantiation used to evaluate closed instances. -/
def triv_fit : LogisticRegressionParams → List Unit → List Int → Option (List Rat) → Unit :=
  fun _ _ _ _ => ()

/-- Trivial probability predictor used to evaluate closed instances. -/
def triv_proba : Unit → List Unit → List (Rat × Rat) :=
  fun _ xs => xs.map (fun _ => (0, 0))

/-- Identity shuffle used to evaluate closed instances. -/
def triv_shuffle : Nat → Nat → List Nat :=
  fun _ n => List.range n

/-- C4 counterexample: on an enumeration input whose second estimator raises
during instantiation, the notebook's loop (with the bare `try/except: pass`)
completes normally and prints the other two names, whereas without the catch
the exception would propagate.  The raised exception is therefore caught and
suppressed, refuting the claim that no exception anywhere in the program is
caught and suppressed. -/
theorem error_suppression_counterexample :
    all_estimators_loop failing_estimators = ["LogisticRegression", "SVC"] ∧
    all_estimators_loop_no_catch failing_estimators =
      Except.error "__init__ raised TypeError" :=
  ⟨rfl, rfl⟩

/-- C4 amended: the estimator-enumeration loop of cell 1 is the one piece of
explicit error handling: it never propagates an instantiation failure, always
completing with exactly the names whose instantiation succeeded and exposed
`class_weight`; everywhere else failures propagate uncaught - in particular a
failure of the CSV load aborts the whole run with that very error, with no
retry or recovery. -/
theorem error_handling_amended {M F : Type} (shuffle : Nat → Nat → List Nat)
    (fit : LogisticRegressionParams → List F → List Int → Option (List Rat) → M)
    (predict_proba : M → List F → List (Rat × Rat)) (ambient : Nat) :
    (∀ estimators : List (String × Except String Bool),
      all_estimators_loop estimators =
        (estimators.filter (fun e => instantiation_ok e.2)).map Prod.fst) ∧
    (∀ err : String,
      notebook_run shuffle fit predict_proba ambient (Except.error err) =
        Except.error err) := by
  constructor
  · intro estimators
    induction estimators with
    | nil => rfl
    | cons e rest ih =>
      obtain ⟨name, r⟩ := e
      match r with
      | Except.ok true => simp [all_estimators_loop, instantiation_ok, List.filter, ih]
      | Except.ok false => simp [all_estimators_loop, instantiation_ok, List.filter, ih]
      | Except.error msg => simp [all_estimators_loop, instantiation_ok, List.filter, ih]
  · intro err
    rfl

/-- C10: the post-load pipeline - seeded shuffle, split, five fit-and-score
runs - is a deterministic function of the in-memory table: its printed lines
are identical for any two values of the ambient randomness, because
`train_test_split` is called with `random_state=0` and both classifier
configurations carry `random_state = 0` (the abstract `fit` is a function of
its arguments).  By contrast `sample(10000)` is unseeded: there are runs in
which different ambient randomness yields different loaded datasets. -/
theorem determinism_seeded_vs_unseeded :
    (∀ (M F : Type) (shuffle : Nat → Nat → List Nat)
       (fit : LogisticRegressionParams → List F → List Int → Option (List Rat) → M)
       (predict_proba : M → List F → List (Rat × Rat))
       (ambient1 ambient2 : Nat) (table : List (F × Int)),
       pipeline_after_load shuffle fit predict_proba ambient1 table =
       pipeline_after_load shuffle fit predict_proba ambient2 table) ∧
    (cell8_params ClassWeight.none).random_state = 0 ∧
    cell14_params.random_state = 0 ∧
    (∃ (shuffle : Nat → Nat → List Nat) (ambient1 ambient2 : Nat) (rows : List Int),
       pandas_sample shuffle (seed_or_ambient Option.none ambient1) rows 10000 ≠
       pandas_sample shuffle (seed_or_ambient Option.none ambient2) rows 10000) := by
  refine ⟨fun M F shuffle fit predict_proba a1 a2 table => rfl, rfl, rfl, ?_⟩
  refine ⟨fun s n => if s == 0 then List.range n else (List.range n).reverse,
    0, 1, [5, 7], ?_⟩
  decide

/-- C7: in the full effect trace of the notebook, the only file read is the
single read of the relative path `../kdd2004.csv` (a path not starting at the
filesystem root), it occurs before any metric line is printed, and no effect
whatsoever writes a file or persists state - besides that one read, the trace
is printed output only.  The fitted model itself never appears in the trace:
`run_Logit` returns only its printed lines, so no model state can flow from
one run into the next. -/
theorem notebook_frame_effects {M F : Type} (shuffle : Nat → Nat → List Nat)
    (fit : LogisticRegressionParams → List F → List Int → Option (List Rat) → M)
    (predict_proba : M → List F → List (Rat × Rat))
    (estimators : List (String × Except String Bool))
    (csv_rows : List (F × Int)) (ambient : Nat) :
    ((notebook_effects shuffle fit predict_proba estimators csv_rows ambient).filter
        Effect.is_read = [Effect.read_file csv_path]) ∧
    csv_path.data.head? ≠ some (Char.ofNat 47) ∧
    (∀ e ∈ notebook_effects shuffle fit predict_proba estimators csv_rows ambient,
      Effect.is_write e = false) ∧
    (∃ pre post,
      notebook_effects shuffle fit predict_proba estimators csv_rows ambient =
        pre ++ Effect.read_file csv_path :: post ∧
      ∀ e ∈ pre, Effect.is_read e = false ∧ Effect.is_write e = false) := by
  refine ⟨?_, by decide, ?_, ?_⟩
  · simp [notebook_effects, List.filter_append, List.filter_map, Function.comp,
      Effect.is_read, List.filter]
  · intro e he
    simp only [notebook_effects, List.mem_append, List.mem_map, List.mem_singleton] at he
    rcases he with (⟨n, -, rfl⟩ | rfl) | ⟨l, -, rfl⟩ <;> rfl
  · refine ⟨(all_estimators_loop estimators).map (fun n => Effect.print (Printed.text n)),
      (pipeline_after_load shuffle fit predict_proba ambient
        (pandas_sample shuffle (seed_or_ambient Option.none ambient) csv_rows
          10000)).map Effect.print, ?_, ?_⟩
    · simp [notebook_effects]
    · intro e he
      simp only [List.mem_map] at he
      obtain ⟨n, -, rfl⟩ := he
      exact ⟨rfl, rfl⟩

/-- Closed instance of `notebook_frame_effects` on the trivial instantiation:
the trace's only file read is the CSV read, the path is relative, and the read
effect itself writes nothing. -/
theorem notebook_frame_effects_witness :
    ((notebook_effects triv_shuffle triv_fit triv_proba [] ([] : List (Unit × Int))
        0).filter Effect.is_read = [Effect.read_file csv_path]) ∧
    csv_path.data.head? ≠ some (Char.ofNat 47) ∧
    Effect.is_write (Effect.read_file csv_path) = false := by
  have h := notebook_frame_effects triv_shuffle triv_fit triv_proba []
    ([] : List (Unit × Int)) 0
  refine ⟨h.1, h.2.1, ?_⟩
  exact h.2.2.1 (Effect.read_file csv_path) (List.mem_cons_self _ _)
